import Mathlib

/-
  Shallow embedding of the scroll-state engine of
  src/ui/src/components/scroll-area/QScrollArea.js.

  JavaScript numbers are modelled as exact rationals extended with the
  special values NaN, Infinity and -Infinity (`JSNum`), so that the
  degenerate-geometry arithmetic (division by zero producing NaN/Infinity)
  is represented faithfully.  All state fields that the DOM delivers
  (sizes, positions) are finite and therefore modelled as plain rationals.
-/

namespace QScrollArea

/-- JavaScript number values as produced by the scroll-area arithmetic:
a finite value (an exact rational), NaN, Infinity or -Infinity. -/
inductive JSNum where
  | num : ℚ → JSNum
  | nan : JSNum
  | inf : JSNum
  | ninf : JSNum
deriving DecidableEq, Repr

namespace JSNum

/-- Whether the value is NaN. -/
def isNaN : JSNum → Bool
  | nan => true
  | _ => false

/-- Whether the value is a finite number. -/
def isFinite : JSNum → Bool
  | num _ => true
  | _ => false

/-- The rational carried by a finite value (0 for the non-finite values;
used only where finiteness has been established). -/
def toQ : JSNum → ℚ
  | num q => q
  | _ => 0

/-- JavaScript addition. -/
def add : JSNum → JSNum → JSNum
  | nan, _ => nan
  | _, nan => nan
  | num a, num b => num (a + b)
  | num _, inf => inf
  | num _, ninf => ninf
  | inf, num _ => inf
  | ninf, num _ => ninf
  | inf, inf => inf
  | ninf, ninf => ninf
  | inf, ninf => nan
  | ninf, inf => nan

/-- JavaScript subtraction. -/
def sub : JSNum → JSNum → JSNum
  | nan, _ => nan
  | _, nan => nan
  | num a, num b => num (a - b)
  | num _, inf => ninf
  | num _, ninf => inf
  | inf, num _ => inf
  | ninf, num _ => ninf
  | inf, inf => nan
  | ninf, ninf => nan
  | inf, ninf => inf
  | ninf, inf => ninf

/-- JavaScript multiplication (zero times an infinity is NaN). -/
def mul : JSNum → JSNum → JSNum
  | nan, _ => nan
  | _, nan => nan
  | num a, num b => num (a * b)
  | num a, inf => if a = 0 then nan else if 0 < a then inf else ninf
  | num a, ninf => if a = 0 then nan else if 0 < a then ninf else inf
  | inf, num b => if b = 0 then nan else if 0 < b then inf else ninf
  | ninf, num b => if b = 0 then nan else if 0 < b then ninf else inf
  | inf, inf => inf
  | ninf, ninf => inf
  | inf, ninf => ninf
  | ninf, inf => ninf

/-- JavaScript division: a nonzero finite number divided by zero is a
signed infinity, and 0/0 is NaN.  (Negative zero never arises here: the
divisors in this file are differences of finite numbers.) -/
def div : JSNum → JSNum → JSNum
  | nan, _ => nan
  | _, nan => nan
  | num a, num b =>
      if b = 0 then (if a = 0 then nan else if 0 < a then inf else ninf)
      else num (a / b)
  | num _, inf => num 0
  | num _, ninf => num 0
  | inf, num b => if 0 ≤ b then inf else ninf
  | ninf, num b => if 0 ≤ b then ninf else inf
  | inf, inf => nan
  | inf, ninf => nan
  | ninf, inf => nan
  | ninf, ninf => nan

/-- JavaScript comparison a <= b (false whenever an operand is NaN). -/
def le : JSNum → JSNum → Bool
  | nan, _ => false
  | _, nan => false
  | num a, num b => decide (a ≤ b)
  | num _, inf => true
  | num _, ninf => false
  | inf, num _ => false
  | inf, inf => true
  | inf, ninf => false
  | ninf, _ => true

/-- Math.min (NaN-propagating). -/
def jmin : JSNum → JSNum → JSNum
  | nan, _ => nan
  | _, nan => nan
  | num a, num b => num (min a b)
  | num a, inf => num a
  | num _, ninf => ninf
  | inf, b => b
  | ninf, _ => ninf

/-- Math.max (NaN-propagating). -/
def jmax : JSNum → JSNum → JSNum
  | nan, _ => nan
  | _, nan => nan
  | num a, num b => num (max a b)
  | num _, inf => inf
  | num a, ninf => num a
  | inf, _ => inf
  | ninf, b => b

/-- Math.round: rounds a finite value to the nearest integer, halves
toward positive infinity; fixes NaN and the infinities. -/
def round : JSNum → JSNum
  | num q => num ((Rat.floor (q + 1 / 2) : ℤ) : ℚ)
  | nan => nan
  | inf => inf
  | ninf => ninf

end JSNum

/-- Modelled from the spec: the clamp helper `between` of
`src/ui/src/utils/format.js`, which QScrollArea.js imports but which is
not under `src/`.  The spec describes it as clamping into `[lo, hi]`
("clamped to `[0,1]`", "clamp(containerExtent^2 / contentExtent, 50,
containerExtent)") and states that when `containerExtent < 50` the thumb
"may exceed the container", i.e. the lower bound wins when the bounds
cross. -/
def between (v lo hi : ℚ) : ℚ :=
  if hi ≤ lo then lo else min hi (max lo v)

/-- Modelled from the spec: `between` on JavaScript numbers.  Per the
spec, "Division-by-zero (`contentExtent == containerExtent`) must be
treated as `0/0 → NaN`; callers must clamp `NaN` to `0`": a NaN input
clamps to the lower bound. -/
def betweenJS (v lo hi : JSNum) : JSNum :=
  if v.isNaN then lo
  else if JSNum.le hi lo then lo else JSNum.jmin hi (JSNum.jmax lo v)

/-- Derived per-axis `percentage` (QScrollArea.js lines 91-94 and
130-133; the vertical and horizontal computeds are textually identical up
to the axis): `between(position / (size - container), 0, 1)` rounded to 4
decimals via `Math.round(p * 10000) / 10000`. -/
def percentage (position containerExtent size : ℚ) : JSNum :=
  let p := betweenJS
    (JSNum.div (JSNum.num position) (JSNum.num (size - containerExtent)))
    (JSNum.num 0) (JSNum.num 1)
  JSNum.div (JSNum.round (JSNum.mul p (JSNum.num 10000))) (JSNum.num 10000)

/-- Derived per-axis `thumbSize` (lines 102-110 and 141-149):
`Math.round(between(container * container / size, 50, container))`. -/
def thumbSize (containerExtent size : ℚ) : JSNum :=
  JSNum.round (betweenJS
    (JSNum.div (JSNum.num (containerExtent * containerExtent)) (JSNum.num size))
    (JSNum.num 50) (JSNum.num containerExtent))

/-- Derived per-axis `thumbHidden` (lines 95-101 and 134-140):
`((props.visible === null ? hover : props.visible) !== true && tempShowing
=== false && panning === false) || size <= container + 1`.  `visible` is
the three-state prop (`none` = follow hover). -/
def thumbHidden (visible : Option Bool) (hover tempShowing panning : Bool)
    (containerExtent size : ℚ) : Bool :=
  ((visible.getD hover) != true && tempShowing == false && panning == false)
    || decide (size ≤ containerExtent + 1)

/-- The thumb pixel offset of the per-axis `style` computed (lines
111-120 and 150-159): `percentage * (container - thumbSize)`. -/
def thumbStyleOffset (position containerExtent size : ℚ) : JSNum :=
  JSNum.mul (percentage position containerExtent size)
    (JSNum.sub (JSNum.num containerExtent) (thumbSize containerExtent size))

/-- The two scroll axes (the `axisList` values of line 16). -/
inductive Axis where
  | vertical : Axis
  | horizontal : Axis
deriving DecidableEq, Repr

/-- Pan-event directions delivered by the gesture recognizer. -/
inductive Dir where
  | up : Dir
  | down : Dir
  | left : Dir
  | right : Dir
deriving DecidableEq, Repr

/-- The `dir` entry of the `dirProps` table (lines 17-20): the positive
physical direction of each axis. -/
def axisDir : Axis → Dir
  | Axis.vertical => Dir.down
  | Axis.horizontal => Dir.right

/-- One pan event of the gesture stream:
`{isFirst, isFinal, distance: {x, y}, direction}`. -/
structure PanEvent where
  isFirst : Bool
  isFinal : Bool
  distX : ℚ
  distY : ℚ
  direction : Dir
deriving DecidableEq, Repr

/-- The `dist` entry of `dirProps`: `e.distance[dProp.dist]`. -/
def axisDist : Axis → PanEvent → ℚ
  | Axis.vertical, e => e.distY
  | Axis.horizontal, e => e.distX

/-- The mutable state of the scroll-area engine relevant to the claims:
the shared interaction flags (`tempShowing`, `panning`, `hover`), the drag
reference `panRefPos` (line 82), the per-axis observed positions and
sizes (`scroll[axis].position/.size`, `container[axis]`), and the offsets
last written to the scroll target node (`targetRef`'s scrollTop and
scrollLeft). -/
structure ScrollAreaState where
  tempShowing : Bool
  panning : Bool
  hover : Bool
  panRefPos : ℚ
  vPosition : ℚ
  hPosition : ℚ
  vSize : ℚ
  hSize : ℚ
  vContainer : ℚ
  hContainer : ℚ
  vTarget : JSNum
  hTarget : JSNum
deriving DecidableEq, Repr

/-- The observed scroll position of an axis (`scroll[axis].position`). -/
def axisPosition (axis : Axis) (st : ScrollAreaState) : ℚ :=
  match axis with
  | Axis.vertical => st.vPosition
  | Axis.horizontal => st.hPosition

/-- The content extent of an axis (`scroll[axis].size`). -/
def axisSize (axis : Axis) (st : ScrollAreaState) : ℚ :=
  match axis with
  | Axis.vertical => st.vSize
  | Axis.horizontal => st.hSize

/-- The container extent of an axis (`container[axis]`). -/
def axisContainer (axis : Axis) (st : ScrollAreaState) : ℚ :=
  match axis with
  | Axis.vertical => st.vContainer
  | Axis.horizontal => st.hContainer

/-- The offset last written to the scroll target along an axis. -/
def axisTarget (axis : Axis) (st : ScrollAreaState) : JSNum :=
  match axis with
  | Axis.vertical => st.vTarget
  | Axis.horizontal => st.hTarget

/-- `setScroll` (lines 337-339): writes the offset to the scroll target
node's scrollTop/scrollLeft.  The spec states the scroll observer echoes
a written value back into the observed `position` ("an idempotent round
trip"); the echo is modelled for finite writes — what the DOM node does
with a non-finite write is outside the code under verification, so a
non-finite write is recorded in the target field only. -/
def setScroll (offset : JSNum) (axis : Axis) (st : ScrollAreaState) : ScrollAreaState :=
  match axis with
  | Axis.vertical =>
      { st with vTarget := offset,
                vPosition := match offset with
                  | JSNum.num q => q
                  | _ => st.vPosition }
  | Axis.horizontal =>
      { st with hTarget := offset,
                hPosition := match offset with
                  | JSNum.num q => q
                  | _ => st.hPosition }

/-- The unconditional tail of `onPanThumb` (lines 289-300): clear
`panning` on a final event, compute
`multiplier = (size - container) / (container - thumbSize)`,
`pos = panRefPos + (direction matches ? 1 : -1) * distance * multiplier`,
and write `pos` through `setScroll`. -/
def panMove (axis : Axis) (e : PanEvent) (st : ScrollAreaState) : ScrollAreaState :=
  let st1 := if e.isFinal then { st with panning := false } else st
  let containerSize := axisContainer axis st1
  let multiplier := JSNum.div
    (JSNum.num (axisSize axis st1 - containerSize))
    (JSNum.sub (JSNum.num containerSize) (thumbSize containerSize (axisSize axis st1)))
  let distance := axisDist axis e
  let pos := JSNum.add (JSNum.num st1.panRefPos)
    (JSNum.mul (JSNum.num ((if e.direction = axisDir axis then 1 else -1) * distance))
      multiplier)
  setScroll pos axis st1

/-- `onPanThumb` (lines 274-301): a first event is dropped when the
thumb is hidden, otherwise it records `panRefPos` and raises `panning`;
a non-first event is dropped unless a pan is in progress; the surviving
events fall through to `panMove`. -/
def onPanThumb (visible : Option Bool) (axis : Axis) (e : PanEvent)
    (st : ScrollAreaState) : ScrollAreaState :=
  if e.isFirst then
    if thumbHidden visible st.hover st.tempShowing st.panning
        (axisContainer axis st) (axisSize axis st) then st
    else panMove axis e { st with panRefPos := axisPosition axis st, panning := true }
  else if st.panning ≠ true then st
  else panMove axis e st

/-- Folding a gesture stream through `onPanThumb`. -/
def runPan (visible : Option Bool) (axis : Axis) (events : List PanEvent)
    (st : ScrollAreaState) : ScrollAreaState :=
  events.foldl (fun s e => onPanThumb visible axis e s) st

/-- The `axisList` of line 16, as the strings a caller may pass. -/
def axisListS : List String := ["vertical", "horizontal"]

/-- Modelled from the spec: `setVerticalScrollPosition` and
`setHorizontalScrollPosition` of `src/ui/src/utils/scroll.js` (imported
by QScrollArea.js but not under `src/`) — they write the offset through
to the real scroll target, "optionally animated over `duration`"; the
animation is not modelled, only the finally written offset. -/
def setTargetScrollPosition (axis : Axis) (offset : ℚ) (st : ScrollAreaState) :
    ScrollAreaState :=
  setScroll (JSNum.num offset) axis st

/-- `localSetScrollPosition` (lines 217-228): validates the axis string;
an invalid axis produces one console.error diagnostic and no other
effect.  Returns the new state and the list of diagnostics emitted. -/
def localSetScrollPosition (axis : String) (offset : ℚ) (st : ScrollAreaState) :
    ScrollAreaState × List String :=
  if axisListS.contains axis = false then
    (st, ["[QScrollArea]: wrong first param of setScrollPosition (vertical/horizontal)"])
  else
    (setTargetScrollPosition
      (if axis = "vertical" then Axis.vertical else Axis.horizontal) offset st, [])

/-- State of the visibility timer: the `tempShowing` flag, the list of
scheduled timeouts still pending (timeout id paired with its absolute
expiry time), and the `timer` variable of line 82 holding the id returned
by the last `setTimeout`. -/
structure TimerState where
  tempShowing : Bool
  pending : List (ℕ × ℚ)
  lastId : ℕ
deriving DecidableEq, Repr

/-- The timer state at engine construction: not showing, nothing
scheduled. -/
def TimerState.initial : TimerState := ⟨false, [], 0⟩

/-- clearTimeout: removes the pending timeout with the given id, if any. -/
def clearTimeoutId (id : ℕ) (ts : List (ℕ × ℚ)) : List (ℕ × ℚ) :=
  ts.filter (fun t => t.1 != id)

/-- `startTimer` (lines 325-335) invoked at absolute time `now` with the
configured `delay`: if `tempShowing` is already true the pending timeout
is cancelled, otherwise `tempShowing` is raised; either way a fresh
timeout `delay` ms out is scheduled and its id stored in `timer`.  (The
debounced `emitScroll` call of line 334 has no effect on this state and
is not modelled.) -/
def startTimer (delay now : ℚ) (s : TimerState) : TimerState :=
  let pending := if s.tempShowing then clearTimeoutId s.lastId s.pending else s.pending
  let id := s.lastId + 1
  { tempShowing := true, pending := pending ++ [(id, now + delay)], lastId := id }

/-- The event loop firing every timeout due at time `now`: each fired
callback (line 333) sets `tempShowing := false`. -/
def fireDue (now : ℚ) (s : TimerState) : TimerState :=
  let stillPending := s.pending.filter (fun t => !(decide (t.2 ≤ now)))
  { s with
    tempShowing :=
      if (s.pending.filter (fun t => decide (t.2 ≤ now))).isEmpty then s.tempShowing
      else false,
    pending := stillPending }

/-- A `notify()` of the visibility timer arriving at time `now`: any
timeout already due fires first (events are processed in delivery
order), then `startTimer` runs. -/
def notifyAt (delay now : ℚ) (s : TimerState) : TimerState :=
  startTimer delay now (fireDue now s)

/-- Running a whole schedule of `notify()` calls. -/
def runNotifies (delay : ℚ) (times : List ℚ) (s : TimerState) : TimerState :=
  times.foldl (fun s t => notifyAt delay t s) s

/-- Observing `tempShowing` at time `now`: every timeout due by `now`
has fired. -/
def observeShowing (now : ℚ) (s : TimerState) : Bool :=
  (fireDue now s).tempShowing

/-- Successive notify times, each strictly later than the one before and
less than `delay` after it. -/
def notifyChain (delay : ℚ) (l : List ℚ) : Prop :=
  l.Chain' (fun a b => a < b ∧ b - a < delay)

/-- The timer state holding exactly one pending timeout, visible. -/
def oneShot (id : ℕ) (expiry : ℚ) : TimerState := ⟨true, [(id, expiry)], id⟩

/-- The spec formula for the percentage, as a pure rational function
(meaningful when `size ≠ containerExtent`): the ratio clamped to `[0,1]`
and rounded to 4 decimal places. -/
def percentageQ (position containerExtent size : ℚ) : ℚ :=
  ((Rat.floor (between (position / (size - containerExtent)) 0 1 * 10000 + 1 / 2) : ℤ) : ℚ)
    / 10000

/-- A concrete state: container 30, content 100; the clamped thumb size
(50) exceeds the 30px track, and a vertical drag is active with
reference position 10. -/
def exReversedState : ScrollAreaState :=
  { tempShowing := false, panning := true, hover := true, panRefPos := 10,
    vPosition := 10, hPosition := 0, vSize := 100, hSize := 0,
    vContainer := 30, hContainer := 0,
    vTarget := JSNum.num 0, hTarget := JSNum.num 0 }

/-- A concrete state: container 50, content 52; the thumb (50px) fills
the track exactly, with no drag active and the pointer hovering. -/
def exFillsTrackState : ScrollAreaState :=
  { tempShowing := false, panning := false, hover := true, panRefPos := 0,
    vPosition := 1, hPosition := 0, vSize := 52, hSize := 0,
    vContainer := 50, hContainer := 0,
    vTarget := JSNum.num 0, hTarget := JSNum.num 0 }

/-- A concrete idle state with a hidden thumb (no hover, no override,
nothing to scroll). -/
def exIdleHiddenState : ScrollAreaState :=
  { tempShowing := false, panning := false, hover := false, panRefPos := 0,
    vPosition := 0, hPosition := 0, vSize := 0, hSize := 0,
    vContainer := 0, hContainer := 0,
    vTarget := JSNum.num 0, hTarget := JSNum.num 0 }

/-- A concrete visible idle state: container 200, content 1000, observed
vertical position 400, pointer hovering. -/
def exVisibleState : ScrollAreaState :=
  { tempShowing := false, panning := false, hover := true, panRefPos := 0,
    vPosition := 400, hPosition := 0, vSize := 1000, hSize := 0,
    vContainer := 200, hContainer := 0,
    vTarget := JSNum.num 0, hTarget := JSNum.num 0 }

/-- A concrete degenerate-geometry state: container and content both 100
along the vertical axis, pointer hovering (the thumb is hidden by the
geometry alone). -/
def exDegenerateState : ScrollAreaState :=
  { tempShowing := false, panning := false, hover := true, panRefPos := 0,
    vPosition := 0, hPosition := 0, vSize := 100, hSize := 0,
    vContainer := 100, hContainer := 0,
    vTarget := JSNum.num 0, hTarget := JSNum.num 0 }

/-- A concrete zero-size-container state: container 0 and content 100
along the vertical axis, pointer hovering. -/
def exZeroContainerState : ScrollAreaState :=
  { tempShowing := false, panning := false, hover := true, panRefPos := 0,
    vPosition := 0, hPosition := 0, vSize := 100, hSize := 0,
    vContainer := 0, hContainer := 0,
    vTarget := JSNum.num 0, hTarget := JSNum.num 0 }

/-- First pan event, downward, zero distance. -/
def exPanFirst0 : PanEvent := ⟨true, false, 0, 0, Dir.down⟩

/-- Non-first, non-final pan event, 10px down. -/
def exPanMove10 : PanEvent := ⟨false, false, 0, 10, Dir.down⟩

/-- Final pan event, downward, zero distance. -/
def exPanFinal0 : PanEvent := ⟨false, true, 0, 0, Dir.down⟩

end QScrollArea

namespace QScrollArea

/- Helper lemmas. -/

/-- Characterization of `Rat.floor` used to evaluate concrete roundings. -/
lemma rat_floor_eq (q : ℚ) (z : ℤ) (h1 : (z : ℚ) ≤ q) (h2 : q < z + 1) :
    Rat.floor q = z := by
  have hle : z ≤ Rat.floor q := Rat.le_floor.mpr h1
  have hlt : ¬ (z + 1 ≤ Rat.floor q) := by
    intro h
    have := Rat.le_floor.mp h
    push_cast at this
    linarith
  omega

/-- `Rat.floor` agrees with the `Int.floor` of Mathlib. -/
lemma rat_floor_eq_int_floor (q : ℚ) : Rat.floor q = ⌊q⌋ :=
  (Rat.floor_def' q).trans Rat.floor_def.symm

lemma jsdiv_num_num (a b : ℚ) (hb : b ≠ 0) :
    JSNum.div (JSNum.num a) (JSNum.num b) = JSNum.num (a / b) := by
  simp [JSNum.div, hb]

lemma jsmul_num_num (a b : ℚ) :
    JSNum.mul (JSNum.num a) (JSNum.num b) = JSNum.num (a * b) := rfl

lemma jsadd_num_num (a b : ℚ) :
    JSNum.add (JSNum.num a) (JSNum.num b) = JSNum.num (a + b) := rfl

lemma jssub_num_num (a b : ℚ) :
    JSNum.sub (JSNum.num a) (JSNum.num b) = JSNum.num (a - b) := rfl

lemma jsround_num (q : ℚ) :
    JSNum.round (JSNum.num q) = JSNum.num ((Rat.floor (q + 1 / 2) : ℤ) : ℚ) := rfl

lemma betweenJS_num (v lo hi : ℚ) :
    betweenJS (JSNum.num v) (JSNum.num lo) (JSNum.num hi)
      = JSNum.num (between v lo hi) := by
  by_cases h : hi ≤ lo <;>
    simp [betweenJS, between, JSNum.isNaN, JSNum.le, JSNum.jmin, JSNum.jmax, h]

lemma isFinite_iff (x : JSNum) : x.isFinite = true ↔ ∃ q, x = JSNum.num q := by
  cases x <;> simp [JSNum.isFinite]

lemma betweenJS_isFinite (v : JSNum) (lo hi : ℚ) :
    (betweenJS v (JSNum.num lo) (JSNum.num hi)).isFinite = true := by
  cases v <;> by_cases h : hi ≤ lo <;>
    simp [betweenJS, JSNum.isNaN, JSNum.le, JSNum.jmin, JSNum.jmax, JSNum.isFinite, h]

lemma jsround_isFinite (x : JSNum) : (JSNum.round x).isFinite = x.isFinite := by
  cases x <;> simp [JSNum.round, JSNum.isFinite]

lemma thumbSize_isFinite (c s : ℚ) : (thumbSize c s).isFinite = true := by
  rw [thumbSize, jsround_isFinite]
  exact betweenJS_isFinite _ _ _

lemma thumbSize_num (c s : ℚ) : ∃ t, thumbSize c s = JSNum.num t :=
  (isFinite_iff _).mp (thumbSize_isFinite c s)

lemma between_mem (v lo hi : ℚ) (h : lo ≤ hi) :
    lo ≤ between v lo hi ∧ between v lo hi ≤ hi := by
  by_cases h2 : hi ≤ lo
  · simp [between, h2, h]
  · simp only [between, h2, if_false]
    exact ⟨le_min (le_of_not_le h2) (le_max_left _ _), min_le_left _ _⟩

lemma percentage_eq (position c s : ℚ) (h : s - c ≠ 0) :
    percentage position c s = JSNum.num (percentageQ position c s) := by
  simp only [percentage, percentageQ]
  rw [jsdiv_num_num _ _ h, betweenJS_num, jsmul_num_num, jsround_num,
    jsdiv_num_num _ _ (by norm_num)]

lemma percentage_isFinite (position c s : ℚ) :
    (percentage position c s).isFinite = true := by
  simp only [percentage]
  obtain ⟨q, hq⟩ := (isFinite_iff _).mp
    (betweenJS_isFinite (JSNum.div (JSNum.num position) (JSNum.num (s - c))) 0 1)
  rw [hq, jsmul_num_num, jsround_num, jsdiv_num_num _ _ (by norm_num)]
  rfl

lemma percentageQ_bounds (position c s : ℚ) :
    0 ≤ percentageQ position c s ∧ percentageQ position c s ≤ 1 := by
  have hb := between_mem (position / (s - c)) 0 1 (by norm_num)
  simp only [percentageQ, rat_floor_eq_int_floor]
  have hfl : (0 : ℤ) ≤ ⌊between (position / (s - c)) 0 1 * 10000 + 1 / 2⌋ := by
    apply Int.le_floor.mpr
    push_cast
    nlinarith [hb.1]
  have hfu : ⌊between (position / (s - c)) 0 1 * 10000 + 1 / 2⌋ ≤ 10000 := by
    have : ⌊between (position / (s - c)) 0 1 * 10000 + 1 / 2⌋ < 10001 := by
      apply Int.floor_lt.mpr
      push_cast
      nlinarith [hb.2]
    omega
  constructor
  · apply div_nonneg _ (by norm_num)
    exact_mod_cast hfl
  · rw [div_le_one (by norm_num)]
    exact_mod_cast hfu

/-- C1: for `contentExtent > containerExtent` the derived percentage is
exactly `position / (contentExtent - containerExtent)` clamped to
`[0, 1]` and rounded to 4 decimal places, hence lies in `[0, 1]`; and
the spec example (`containerExtent = 200`, `contentExtent = 1000`,
`position = 400`) yields `0.5`. -/
theorem percentage_correct (position containerExtent size : ℚ)
    (h : containerExtent < size) :
    percentage position containerExtent size
      = JSNum.num (percentageQ position containerExtent size)
    ∧ 0 ≤ percentageQ position containerExtent size
    ∧ percentageQ position containerExtent size ≤ 1
    ∧ percentage 400 200 1000 = JSNum.num (1 / 2) := by
  refine ⟨percentage_eq _ _ _ (sub_ne_zero.mpr h.ne'),
    (percentageQ_bounds _ _ _).1, (percentageQ_bounds _ _ _).2, ?_⟩
  rw [percentage_eq _ _ _ (by norm_num)]
  norm_num [percentageQ, between,
    rat_floor_eq (10001 / 2 : ℚ) 5000 (by norm_num) (by norm_num)]

/-- Witness for C1 at the spec's example state. -/
theorem percentage_correct_witness :
    (200 : ℚ) < 1000
    ∧ (percentage 400 200 1000 = JSNum.num (percentageQ 400 200 1000)
       ∧ 0 ≤ percentageQ 400 200 1000 ∧ percentageQ 400 200 1000 ≤ 1
       ∧ percentage 400 200 1000 = JSNum.num (1 / 2)) :=
  ⟨by norm_num, percentage_correct 400 200 1000 (by norm_num)⟩

lemma thumbSize_200_1000 : thumbSize 200 1000 = JSNum.num 50 := by
  norm_num [thumbSize, betweenJS, JSNum.div, JSNum.isNaN, JSNum.le, JSNum.jmin,
    JSNum.jmax, JSNum.round,
    rat_floor_eq (101 / 2 : ℚ) 50 (by norm_num) (by norm_num)]

/-- C2 counterexample: at `containerExtent = 200`, `contentExtent = 1000`
the derived thumbSize is not 40 (the claim's value ignores the 50px
lower clamp: `clamp(40, 50, 200) = 50`). -/
theorem thumbSize_example_ne_forty :
    thumbSize 200 1000 ≠ JSNum.num 40 := by
  rw [thumbSize_200_1000]
  simp

/-- C2 amended: at `containerExtent = 200`, `contentExtent = 1000` the
derived thumbSize — `clamp(200 * 200 / 1000, 50, 200) = clamp(40, 50,
200) = 50`, rounded — equals 50. -/
theorem thumbSize_example_eq_fifty :
    thumbSize 200 1000 = JSNum.num 50 := thumbSize_200_1000

lemma thumbSize_eq (c s : ℚ) (hs : s ≠ 0) :
    thumbSize c s
      = JSNum.num ((Rat.floor (between (c * c / s) 50 c + 1 / 2) : ℤ) : ℚ) := by
  rw [thumbSize, jsdiv_num_num _ _ hs, betweenJS_num, jsround_num]

/-- C5 counterexample: the state `containerExtent = 100.7`,
`contentExtent = 100.8` has `contentExtent > containerExtent ≥ 50`, yet
the rounded thumbSize is 101, which exceeds the container extent —
the invariant `thumbSize <= containerExtent` fails for fractional
container sizes. -/
theorem thumbSize_bounds_counterexample :
    (50 : ℚ) ≤ 1007 / 10 ∧ (1007 / 10 : ℚ) < 504 / 5
    ∧ thumbSize (1007 / 10) (504 / 5) = JSNum.num 101
    ∧ ¬ ((thumbSize (1007 / 10) (504 / 5)).toQ ≤ 1007 / 10) := by
  have hcalc : thumbSize (1007 / 10) (504 / 5) = JSNum.num 101 := by
    norm_num [thumbSize, betweenJS, JSNum.div, JSNum.isNaN, JSNum.le, JSNum.jmin,
      JSNum.jmax, JSNum.round,
      rat_floor_eq (1019089 / 10080 : ℚ) 101 (by norm_num) (by norm_num)]
  refine ⟨by norm_num, by norm_num, hcalc, ?_⟩
  rw [hcalc]
  norm_num [JSNum.toQ]

/-- C5 amended: for an integer container extent, whenever
`containerExtent >= 50` and `contentExtent > containerExtent`, the
derived thumbSize lies in `[50, containerExtent]` (rounding can push the
thumbSize at most half a pixel above the clamp, so an integer container
extent is never exceeded). -/
theorem thumbSize_bounds (n : ℕ) (s : ℚ) (hn : 50 ≤ n) (hs : (n : ℚ) < s) :
    50 ≤ (thumbSize (n : ℚ) s).toQ ∧ (thumbSize (n : ℚ) s).toQ ≤ (n : ℚ) := by
  have hn' : (50 : ℚ) ≤ (n : ℚ) := by exact_mod_cast hn
  have hs0 : s ≠ 0 := (lt_of_lt_of_le (by norm_num) (le_trans hn' hs.le)).ne'
  have hb := between_mem ((n : ℚ) * (n : ℚ) / s) 50 (n : ℚ) hn'
  rw [thumbSize_eq _ _ hs0]
  simp only [JSNum.toQ, rat_floor_eq_int_floor]
  constructor
  · have h50 : (50 : ℤ) ≤ ⌊between ((n : ℚ) * (n : ℚ) / s) 50 (n : ℚ) + 1 / 2⌋ := by
      apply Int.le_floor.mpr
      push_cast
      linarith [hb.1]
    exact_mod_cast h50
  · have hup : ⌊between ((n : ℚ) * (n : ℚ) / s) 50 (n : ℚ) + 1 / 2⌋ < (n : ℤ) + 1 := by
      apply Int.floor_lt.mpr
      push_cast
      linarith [hb.2]
    have hle : ⌊between ((n : ℚ) * (n : ℚ) / s) 50 (n : ℚ) + 1 / 2⌋ ≤ (n : ℤ) := by omega
    exact_mod_cast hle

/-- Witness for C5's amended invariant at container 200, content 1000. -/
theorem thumbSize_bounds_witness :
    50 ≤ (200 : ℕ) ∧ ((200 : ℕ) : ℚ) < 1000
    ∧ (50 ≤ (thumbSize ((200 : ℕ) : ℚ) 1000).toQ
       ∧ (thumbSize ((200 : ℕ) : ℚ) 1000).toQ ≤ ((200 : ℕ) : ℚ)) :=
  ⟨by norm_num, by norm_num, thumbSize_bounds 200 1000 (by norm_num) (by norm_num)⟩

lemma thumbStyleOffset_isFinite (position c s : ℚ) :
    (thumbStyleOffset position c s).isFinite = true := by
  simp only [thumbStyleOffset]
  obtain ⟨p, hp⟩ := (isFinite_iff _).mp (percentage_isFinite position c s)
  obtain ⟨t, ht⟩ := thumbSize_num c s
  rw [hp, ht, jssub_num_num, jsmul_num_num]
  rfl

lemma thumbHidden_of_degenerate (visible : Option Bool)
    (hover tempShowing panning : Bool) (c s : ℚ) (hdeg : s ≤ c) :
    thumbHidden visible hover tempShowing panning c s = true := by
  simp only [thumbHidden, Bool.or_eq_true, decide_eq_true_eq]
  right
  linarith

/-- C4 amended: under `contentExtent <= containerExtent` nothing
non-finite reaches the derived values: the percentage and the thumb's
pixel offset are finite numbers, the NaN produced by `0 / 0`
(`position = 0`, `contentExtent = containerExtent`) is clamped to 0, the
thumb is hidden for every interaction state, and a first pan event on
such an axis is ignored (the thumb is non-interactive).  This does not
extend to a zero-size container with larger content, where the thumb
stays visible and interactive (see the counterexample). -/
theorem degenerate_geometry_safe (position containerExtent size : ℚ)
    (hdeg : size ≤ containerExtent) :
    (percentage position containerExtent size).isFinite = true
    ∧ (thumbStyleOffset position containerExtent size).isFinite = true
    ∧ (∀ (visible : Option Bool) (hover tempShowing panning : Bool),
        thumbHidden visible hover tempShowing panning containerExtent size = true)
    ∧ (position = 0 → size = containerExtent →
        percentage position containerExtent size = JSNum.num 0)
    ∧ (∀ (visible : Option Bool) (axis : Axis) (e : PanEvent)
        (st : ScrollAreaState), e.isFirst = true →
        axisContainer axis st = containerExtent → axisSize axis st = size →
        onPanThumb visible axis e st = st) := by
  refine ⟨percentage_isFinite _ _ _, thumbStyleOffset_isFinite _ _ _,
    fun visible hover tempShowing panning =>
      thumbHidden_of_degenerate visible hover tempShowing panning _ _ hdeg,
    ?_, ?_⟩
  · intro h0 hsc
    subst h0 hsc
    norm_num [percentage, JSNum.div, betweenJS, JSNum.isNaN, JSNum.mul,
      JSNum.round, rat_floor_eq (1 / 2 : ℚ) 0 (by norm_num) (by norm_num)]
  · intro visible axis e st hfirst hc hs2
    have hh : thumbHidden visible st.hover st.tempShowing st.panning
        (axisContainer axis st) (axisSize axis st) = true := by
      rw [hc, hs2]
      exact thumbHidden_of_degenerate _ _ _ _ _ _ hdeg
    simp [onPanThumb, hfirst, hh]

/-- Witness for C4 at the degenerate state container = content = 100. -/
theorem degenerate_geometry_safe_witness :
    (100 : ℚ) ≤ 100
    ∧ (percentage 0 100 100).isFinite = true
    ∧ (thumbStyleOffset 0 100 100).isFinite = true
    ∧ thumbHidden none true false false 100 100 = true
    ∧ percentage 0 100 100 = JSNum.num 0
    ∧ onPanThumb none Axis.vertical exPanFirst0 exDegenerateState
        = exDegenerateState := by
  have h := degenerate_geometry_safe 0 100 100 (by norm_num)
  exact ⟨by norm_num, h.1, h.2.1, h.2.2.1 none true false false,
    h.2.2.2.1 rfl rfl,
    h.2.2.2.2 none Axis.vertical exPanFirst0 exDegenerateState rfl rfl rfl⟩

end QScrollArea

namespace QScrollArea

lemma panning_setScroll (o : JSNum) (a : Axis) (st : ScrollAreaState) :
    (setScroll o a st).panning = st.panning := by cases a <;> rfl

lemma panRefPos_setScroll (o : JSNum) (a : Axis) (st : ScrollAreaState) :
    (setScroll o a st).panRefPos = st.panRefPos := by cases a <;> rfl

lemma axisSize_setScroll (a : Axis) (o : JSNum) (st : ScrollAreaState) :
    axisSize a (setScroll o a st) = axisSize a st := by cases a <;> rfl

lemma axisContainer_setScroll (a : Axis) (o : JSNum) (st : ScrollAreaState) :
    axisContainer a (setScroll o a st) = axisContainer a st := by cases a <;> rfl

lemma axisTarget_setScroll (a : Axis) (o : JSNum) (st : ScrollAreaState) :
    axisTarget a (setScroll o a st) = o := by cases a <;> rfl

lemma axisPosition_setScroll_num (a : Axis) (q : ℚ) (st : ScrollAreaState) :
    axisPosition a (setScroll (JSNum.num q) a st) = q := by cases a <;> rfl

lemma axisSize_panningUpdate (a : Axis) (st : ScrollAreaState) (b : Bool) :
    axisSize a { st with panning := b } = axisSize a st := by cases a <;> rfl

lemma axisContainer_panningUpdate (a : Axis) (st : ScrollAreaState) (b : Bool) :
    axisContainer a { st with panning := b } = axisContainer a st := by cases a <;> rfl

lemma panMove_panning (a : Axis) (e : PanEvent) (st : ScrollAreaState) :
    (panMove a e st).panning = (if e.isFinal then false else st.panning) := by
  cases hf : e.isFinal <;> simp [panMove, hf, panning_setScroll]

lemma panMove_panRefPos (a : Axis) (e : PanEvent) (st : ScrollAreaState) :
    (panMove a e st).panRefPos = st.panRefPos := by
  cases hf : e.isFinal <;> simp [panMove, hf, panRefPos_setScroll]

lemma panMove_axisSize (a : Axis) (e : PanEvent) (st : ScrollAreaState) :
    axisSize a (panMove a e st) = axisSize a st := by
  cases hf : e.isFinal <;>
    simp [panMove, hf, axisSize_setScroll, axisSize_panningUpdate]

lemma panMove_axisContainer (a : Axis) (e : PanEvent) (st : ScrollAreaState) :
    axisContainer a (panMove a e st) = axisContainer a st := by
  cases hf : e.isFinal <;>
    simp [panMove, hf, axisContainer_setScroll, axisContainer_panningUpdate]

lemma panMove_write (a : Axis) (e : PanEvent) (st : ScrollAreaState)
    (hden : axisContainer a st
      - (thumbSize (axisContainer a st) (axisSize a st)).toQ ≠ 0) :
    panMove a e st = setScroll (JSNum.num (st.panRefPos
      + ((if e.direction = axisDir a then 1 else -1) * axisDist a e)
        * ((axisSize a st - axisContainer a st)
           / (axisContainer a st
              - (thumbSize (axisContainer a st) (axisSize a st)).toQ)))) a
      (if e.isFinal then { st with panning := false } else st) := by
  obtain ⟨t, ht⟩ := thumbSize_num (axisContainer a st) (axisSize a st)
  rw [ht] at hden ⊢
  simp only [JSNum.toQ] at hden ⊢
  cases hf : e.isFinal <;>
    simp [panMove, hf, axisSize_panningUpdate, axisContainer_panningUpdate, ht,
      jssub_num_num, jsdiv_num_num _ _ hden, jsmul_num_num, jsadd_num_num]


end QScrollArea

namespace QScrollArea

/-- C6: a first pan event starts a drag session (records the drag
reference position and raises `panning`) exactly when the thumb is not
hidden; a first event with a hidden thumb, or any non-first event while
no pan is in progress, leaves the state unchanged. -/
theorem panFirst_starts_iff (visible : Option Bool) (axis : Axis)
    (e : PanEvent) (st : ScrollAreaState)
    (hfirst : e.isFirst = true) (hnf : e.isFinal = false) :
    (thumbHidden visible st.hover st.tempShowing st.panning
        (axisContainer axis st) (axisSize axis st) = true →
      onPanThumb visible axis e st = st)
    ∧ (thumbHidden visible st.hover st.tempShowing st.panning
        (axisContainer axis st) (axisSize axis st) = false →
      (onPanThumb visible axis e st).panning = true
      ∧ (onPanThumb visible axis e st).panRefPos = axisPosition axis st)
    ∧ (∀ e2 : PanEvent, e2.isFirst = false → st.panning = false →
      onPanThumb visible axis e2 st = st) := by
  refine ⟨?_, ?_, ?_⟩
  · intro hh
    simp [onPanThumb, hfirst, hh]
  · intro hh
    simp only [onPanThumb, hfirst, if_true, hh, Bool.false_eq_true, if_false]
    constructor
    · rw [panMove_panning, hnf]
      simp
    · rw [panMove_panRefPos]
  · intro e2 h1 h2
    simp [onPanThumb, h1, h2]

/-- Witness for C6: a hidden-thumb state ignores the first pan event and
a later non-first event; a visible-thumb state starts the session. -/
theorem panFirst_starts_iff_witness :
    thumbHidden none exIdleHiddenState.hover exIdleHiddenState.tempShowing
      exIdleHiddenState.panning (axisContainer Axis.vertical exIdleHiddenState)
      (axisSize Axis.vertical exIdleHiddenState) = true
    ∧ onPanThumb none Axis.vertical exPanFirst0 exIdleHiddenState = exIdleHiddenState
    ∧ onPanThumb none Axis.vertical exPanMove10 exIdleHiddenState = exIdleHiddenState
    ∧ thumbHidden none exVisibleState.hover exVisibleState.tempShowing
      exVisibleState.panning (axisContainer Axis.vertical exVisibleState)
      (axisSize Axis.vertical exVisibleState) = false
    ∧ (onPanThumb none Axis.vertical exPanFirst0 exVisibleState).panning = true
    ∧ (onPanThumb none Axis.vertical exPanFirst0 exVisibleState).panRefPos
        = axisPosition Axis.vertical exVisibleState := by
  have h1 := panFirst_starts_iff none Axis.vertical exPanFirst0 exIdleHiddenState rfl rfl
  have h2 := panFirst_starts_iff none Axis.vertical exPanFirst0 exVisibleState rfl rfl
  have hh1 : thumbHidden none exIdleHiddenState.hover exIdleHiddenState.tempShowing
      exIdleHiddenState.panning (axisContainer Axis.vertical exIdleHiddenState)
      (axisSize Axis.vertical exIdleHiddenState) = true := rfl
  have hh2 : thumbHidden none exVisibleState.hover exVisibleState.tempShowing
      exVisibleState.panning (axisContainer Axis.vertical exVisibleState)
      (axisSize Axis.vertical exVisibleState) = false := by
    norm_num [thumbHidden, exVisibleState, axisContainer, axisSize]
  exact ⟨hh1, h1.1 hh1, h1.2.2 exPanMove10 rfl rfl, hh2,
    (h2.2.1 hh2).1, (h2.2.1 hh2).2⟩


end QScrollArea

namespace QScrollArea

lemma axisDist_finalUpdate (a : Axis) (e : PanEvent) :
    axisDist a { e with isFinal := false } = axisDist a e := by cases a <;> rfl

lemma setScroll_panningUpdate_comm (o : JSNum) (a : Axis) (st : ScrollAreaState) :
    setScroll o a { st with panning := false }
      = { setScroll o a st with panning := false } := by
  cases a <;> rfl

lemma panMove_final_eq (a : Axis) (e : PanEvent) (st : ScrollAreaState)
    (hf : e.isFinal = true) :
    panMove a e st = { panMove a { e with isFinal := false } st with panning := false } := by
  simp [panMove, hf, axisDist_finalUpdate, axisContainer_panningUpdate,
    axisSize_panningUpdate, setScroll_panningUpdate_comm]

/-- C10: a final pan event during an active drag clears `panning` and
still applies its own position update — the resulting state is exactly
the state the same event would have produced with `isFinal = false`,
with `panning` lowered. -/
theorem panFinal_applies_update (visible : Option Bool) (axis : Axis)
    (e : PanEvent) (st : ScrollAreaState)
    (hfirst : e.isFirst = false) (hpan : st.panning = true)
    (hf : e.isFinal = true) :
    (onPanThumb visible axis e st).panning = false
    ∧ onPanThumb visible axis e st
      = { onPanThumb visible axis { e with isFinal := false } st with panning := false } := by
  have hon : onPanThumb visible axis e st = panMove axis e st := by
    simp [onPanThumb, hfirst, hpan]
  have hon2 : onPanThumb visible axis { e with isFinal := false } st
      = panMove axis { e with isFinal := false } st := by
    simp [onPanThumb, hfirst, hpan]
  constructor
  · rw [hon, panMove_panning, hf]
    simp
  · rw [hon, hon2]
    exact panMove_final_eq axis e st hf

/-- Witness for C10 at a concrete active drag state. -/
theorem panFinal_applies_update_witness :
    (onPanThumb none Axis.vertical exPanFinal0 exReversedState).panning = false
    ∧ onPanThumb none Axis.vertical exPanFinal0 exReversedState
      = { onPanThumb none Axis.vertical { exPanFinal0 with isFinal := false }
            exReversedState with panning := false } :=
  panFinal_applies_update none Axis.vertical exPanFinal0 exReversedState rfl rfl rfl


end QScrollArea

namespace QScrollArea

lemma thumbSize_30_100 : thumbSize 30 100 = JSNum.num 50 := by
  norm_num [thumbSize, betweenJS, JSNum.div, JSNum.isNaN, JSNum.le, JSNum.jmin,
    JSNum.jmax, JSNum.round,
    rat_floor_eq (101 / 2 : ℚ) 50 (by norm_num) (by norm_num)]

/-- C3 counterexample: in an active vertical drag on the state with
container 30 and content 100 the thumb (50px) exceeds the track, the
multiplier denominator `30 - 50` is negative — and the pan event still
scrolls: the handler computes a negative multiplier instead of treating
it as 0, so the written position moves away from the reference. -/
theorem multiplier_guard_counterexample :
    exReversedState.panning = true
    ∧ axisContainer Axis.vertical exReversedState
        - (thumbSize (axisContainer Axis.vertical exReversedState)
            (axisSize Axis.vertical exReversedState)).toQ ≤ 0
    ∧ axisPosition Axis.vertical
        (onPanThumb none Axis.vertical exPanMove10 exReversedState)
        ≠ axisPosition Axis.vertical exReversedState := by
  have hca : axisContainer Axis.vertical exReversedState = 30 := rfl
  have hsa : axisSize Axis.vertical exReversedState = 100 := rfl
  have hden : axisContainer Axis.vertical exReversedState
      - (thumbSize (axisContainer Axis.vertical exReversedState)
          (axisSize Axis.vertical exReversedState)).toQ ≠ 0 := by
    rw [hca, hsa, thumbSize_30_100]
    norm_num [JSNum.toQ]
  have hon : onPanThumb none Axis.vertical exPanMove10 exReversedState
      = panMove Axis.vertical exPanMove10 exReversedState := by
    simp [onPanThumb, exPanMove10, exReversedState]
  refine ⟨rfl, ?_, ?_⟩
  · rw [hca, hsa, thumbSize_30_100]
    norm_num [JSNum.toQ]
  · rw [hon, panMove_write _ _ _ hden, axisPosition_setScroll_num]
    rw [hca, hsa, thumbSize_30_100]
    norm_num [JSNum.toQ, exReversedState, axisDist, axisDir, exPanMove10,
      axisPosition]


end QScrollArea

namespace QScrollArea

/-- C3 amended: `onPanThumb` computes the multiplier with no guard.
Whenever the denominator `containerExtent - thumbSize` is negative (the
thumb exceeds the track, as happens for `containerExtent < 50`) while
content exceeds the container, an active-drag pan event with positive
distance in the axis's positive direction writes a position strictly
below the drag reference — a reversed scroll effect rather than none. -/
theorem multiplier_no_guard (visible : Option Bool) (axis : Axis)
    (e : PanEvent) (st : ScrollAreaState)
    (hpan : st.panning = true) (hfirst : e.isFirst = false)
    (hdir : e.direction = axisDir axis) (hdist : 0 < axisDist axis e)
    (hsc : axisContainer axis st < axisSize axis st)
    (hden : axisContainer axis st
      - (thumbSize (axisContainer axis st) (axisSize axis st)).toQ < 0) :
    axisPosition axis (onPanThumb visible axis e st) < st.panRefPos := by
  have hon : onPanThumb visible axis e st = panMove axis e st := by
    simp [onPanThumb, hfirst, hpan]
  rw [hon, panMove_write _ _ _ (ne_of_lt hden), axisPosition_setScroll_num, hdir]
  simp only [eq_self_iff_true, if_true, one_mul]
  have hm : (axisSize axis st - axisContainer axis st)
      / (axisContainer axis st
         - (thumbSize (axisContainer axis st) (axisSize axis st)).toQ) < 0 :=
    div_neg_of_pos_of_neg (by linarith) hden
  nlinarith [mul_pos hdist (neg_pos.mpr hm)]

/-- Witness for C3's amended statement at the container-30 state. -/
theorem multiplier_no_guard_witness :
    exReversedState.panning = true
    ∧ exPanMove10.isFirst = false
    ∧ exPanMove10.direction = axisDir Axis.vertical
    ∧ 0 < axisDist Axis.vertical exPanMove10
    ∧ axisContainer Axis.vertical exReversedState
        < axisSize Axis.vertical exReversedState
    ∧ axisContainer Axis.vertical exReversedState
        - (thumbSize (axisContainer Axis.vertical exReversedState)
            (axisSize Axis.vertical exReversedState)).toQ < 0
    ∧ axisPosition Axis.vertical
        (onPanThumb none Axis.vertical exPanMove10 exReversedState)
        < exReversedState.panRefPos := by
  have hden : axisContainer Axis.vertical exReversedState
      - (thumbSize (axisContainer Axis.vertical exReversedState)
          (axisSize Axis.vertical exReversedState)).toQ < 0 := by
    rw [show axisContainer Axis.vertical exReversedState = 30 from rfl,
      show axisSize Axis.vertical exReversedState = 100 from rfl, thumbSize_30_100]
    norm_num [JSNum.toQ]
  exact ⟨rfl, rfl, rfl, by norm_num [axisDist, exPanMove10],
    by norm_num [axisContainer, axisSize, exReversedState], hden,
    multiplier_no_guard none Axis.vertical exPanMove10 exReversedState rfl rfl rfl
      (by norm_num [axisDist, exPanMove10])
      (by norm_num [axisContainer, axisSize, exReversedState]) hden⟩


end QScrollArea

namespace QScrollArea

lemma thumbSize_50_52 : thumbSize 50 52 = JSNum.num 50 := by
  norm_num [thumbSize, betweenJS, JSNum.div, JSNum.isNaN, JSNum.le, JSNum.jmin,
    JSNum.jmax, JSNum.round,
    rat_floor_eq (101 / 2 : ℚ) 50 (by norm_num) (by norm_num)]

/-- C9 counterexample: on the state with container 50 and content 52 the
thumb is visible (a drag session can start at position 1) and fills the
track exactly, so the multiplier is `2 / 0 = Infinity`; a drag whose
distances net to zero (a first and a final event, both at distance 0)
writes `1 + (1 * 0) * Infinity = NaN` through the position setter on
both events — not the starting position 1. -/
theorem drag_roundTrip_counterexample :
    thumbHidden none exFillsTrackState.hover exFillsTrackState.tempShowing
      exFillsTrackState.panning (axisContainer Axis.vertical exFillsTrackState)
      (axisSize Axis.vertical exFillsTrackState) = false
    ∧ axisTarget Axis.vertical
        (runPan none Axis.vertical [exPanFirst0, exPanFinal0] exFillsTrackState)
        = JSNum.nan
    ∧ axisTarget Axis.vertical
        (runPan none Axis.vertical [exPanFirst0, exPanFinal0] exFillsTrackState)
        ≠ JSNum.num (axisPosition Axis.vertical exFillsTrackState) := by
  have hh : thumbHidden none exFillsTrackState.hover exFillsTrackState.tempShowing
      exFillsTrackState.panning (axisContainer Axis.vertical exFillsTrackState)
      (axisSize Axis.vertical exFillsTrackState) = false := by
    norm_num [thumbHidden, exFillsTrackState, axisContainer, axisSize]
  have hrun : axisTarget Axis.vertical
      (runPan none Axis.vertical [exPanFirst0, exPanFinal0] exFillsTrackState)
      = JSNum.nan := by
    norm_num [runPan, onPanThumb, panMove, setScroll, thumbHidden, thumbSize_50_52,
      exFillsTrackState, exPanFirst0, exPanFinal0, axisContainer, axisSize,
      axisPosition, axisTarget, axisDist, axisDir, JSNum.sub, JSNum.div,
      JSNum.mul, JSNum.add]
  exact ⟨hh, hrun, by rw [hrun]; simp⟩


end QScrollArea

namespace QScrollArea

lemma axisSize_startUpdate (a : Axis) (st : ScrollAreaState) (p : ℚ) :
    axisSize a { st with panRefPos := p, panning := true } = axisSize a st := by
  cases a <;> rfl

lemma axisContainer_startUpdate (a : Axis) (st : ScrollAreaState) (p : ℚ) :
    axisContainer a { st with panRefPos := p, panning := true }
      = axisContainer a st := by
  cases a <;> rfl

lemma runPan_mid (visible : Option Bool) (axis : Axis) (mid : List PanEvent) :
    ∀ st : ScrollAreaState, st.panning = true →
    (∀ e ∈ mid, e.isFirst = false ∧ e.isFinal = false) →
    (runPan visible axis mid st).panning = true
    ∧ (runPan visible axis mid st).panRefPos = st.panRefPos
    ∧ axisSize axis (runPan visible axis mid st) = axisSize axis st
    ∧ axisContainer axis (runPan visible axis mid st) = axisContainer axis st := by
  induction mid with
  | nil => exact fun st h _ => ⟨h, rfl, rfl, rfl⟩
  | cons e r ih =>
    intro st hpan hall
    have he := hall e (List.mem_cons_self e r)
    have hstep : onPanThumb visible axis e st = panMove axis e st := by
      simp [onPanThumb, he.1, hpan]
    have h1 : (panMove axis e st).panning = true := by
      rw [panMove_panning, he.2, if_neg (by simp)]
      exact hpan
    have hr : runPan visible axis (e :: r) st
        = runPan visible axis r (panMove axis e st) := by
      simp [runPan, hstep]
    rw [hr]
    obtain ⟨p1, p2, p3, p4⟩ :=
      ih (panMove axis e st) h1 (fun e2 he2 => hall e2 (List.mem_cons_of_mem _ he2))
    exact ⟨p1, p2.trans (panMove_panRefPos _ _ _),
      p3.trans (panMove_axisSize _ _ _), p4.trans (panMove_axisContainer _ _ _)⟩

/-- C9 amended: a drag session started at position `P` whose subsequent
events end with a net signed distance of 0 restores the position, as
each event computes its target absolutely from the drag reference —
provided the thumb does not fill the track exactly
(`containerExtent ≠ thumbSize`, keeping the multiplier finite). -/
theorem drag_roundTrip (visible : Option Bool) (axis : Axis)
    (st : ScrollAreaState) (e0 : PanEvent) (mid : List PanEvent) (eLast : PanEvent)
    (h0f : e0.isFirst = true) (h0nf : e0.isFinal = false)
    (hvis : thumbHidden visible st.hover st.tempShowing st.panning
        (axisContainer axis st) (axisSize axis st) = false)
    (hmid : ∀ e ∈ mid, e.isFirst = false ∧ e.isFinal = false)
    (hl1 : eLast.isFirst = false) (hl2 : axisDist axis eLast = 0)
    (hden : axisContainer axis st
      - (thumbSize (axisContainer axis st) (axisSize axis st)).toQ ≠ 0) :
    axisPosition axis (runPan visible axis (e0 :: (mid ++ [eLast])) st)
      = axisPosition axis st
    ∧ axisTarget axis (runPan visible axis (e0 :: (mid ++ [eLast])) st)
      = JSNum.num (axisPosition axis st) := by
  have hstep0 : onPanThumb visible axis e0 st
      = panMove axis e0
          { st with panRefPos := axisPosition axis st, panning := true } := by
    simp [onPanThumb, h0f, hvis]
  set st1 := panMove axis e0
    { st with panRefPos := axisPosition axis st, panning := true } with hst1
  have h1pan : st1.panning = true := by
    rw [hst1, panMove_panning, h0nf, if_neg (by simp)]
  have h1ref : st1.panRefPos = axisPosition axis st := by
    rw [hst1, panMove_panRefPos]
  have h1size : axisSize axis st1 = axisSize axis st := by
    rw [hst1, panMove_axisSize, axisSize_startUpdate]
  have h1cont : axisContainer axis st1 = axisContainer axis st := by
    rw [hst1, panMove_axisContainer, axisContainer_startUpdate]
  have hsplit : runPan visible axis (e0 :: (mid ++ [eLast])) st
      = onPanThumb visible axis eLast (runPan visible axis mid st1) := by
    simp [runPan, hstep0]
  obtain ⟨hNpan, hNref, hNsize, hNcont⟩ := runPan_mid visible axis mid st1 h1pan hmid
  set stN := runPan visible axis mid st1 with hstN
  have hlast : onPanThumb visible axis eLast stN = panMove axis eLast stN := by
    simp [onPanThumb, hl1, hNpan]
  have hdenN : axisContainer axis stN
      - (thumbSize (axisContainer axis stN) (axisSize axis stN)).toQ ≠ 0 := by
    rw [hNsize, hNcont, h1size, h1cont]
    exact hden
  have hval : stN.panRefPos
      + ((if eLast.direction = axisDir axis then 1 else -1) * axisDist axis eLast)
        * ((axisSize axis stN - axisContainer axis stN)
           / (axisContainer axis stN
              - (thumbSize (axisContainer axis stN) (axisSize axis stN)).toQ))
      = axisPosition axis st := by
    rw [hl2, mul_zero, zero_mul, add_zero, hNref, h1ref]
  rw [hsplit, hlast, panMove_write _ _ _ hdenN]
  constructor
  · rw [axisPosition_setScroll_num, hval]
  · rw [axisTarget_setScroll, hval]

/-- Witness for C9's amended round trip: a three-event drag on the
container-200/content-1000 state (distances 0, 30, then 0) restores
position 400. -/
theorem drag_roundTrip_witness :
    thumbHidden none exVisibleState.hover exVisibleState.tempShowing
      exVisibleState.panning (axisContainer Axis.vertical exVisibleState)
      (axisSize Axis.vertical exVisibleState) = false
    ∧ axisContainer Axis.vertical exVisibleState
        - (thumbSize (axisContainer Axis.vertical exVisibleState)
            (axisSize Axis.vertical exVisibleState)).toQ ≠ 0
    ∧ axisPosition Axis.vertical
        (runPan none Axis.vertical (exPanFirst0 :: ([exPanMove10] ++ [exPanFinal0]))
          exVisibleState)
        = axisPosition Axis.vertical exVisibleState
    ∧ axisTarget Axis.vertical
        (runPan none Axis.vertical (exPanFirst0 :: ([exPanMove10] ++ [exPanFinal0]))
          exVisibleState)
        = JSNum.num (axisPosition Axis.vertical exVisibleState) := by
  have hvis : thumbHidden none exVisibleState.hover exVisibleState.tempShowing
      exVisibleState.panning (axisContainer Axis.vertical exVisibleState)
      (axisSize Axis.vertical exVisibleState) = false := by
    norm_num [thumbHidden, exVisibleState, axisContainer, axisSize]
  have hden : axisContainer Axis.vertical exVisibleState
      - (thumbSize (axisContainer Axis.vertical exVisibleState)
          (axisSize Axis.vertical exVisibleState)).toQ ≠ 0 := by
    rw [show axisContainer Axis.vertical exVisibleState = 200 from rfl,
      show axisSize Axis.vertical exVisibleState = 1000 from rfl,
      thumbSize_200_1000]
    norm_num [JSNum.toQ]
  have h := drag_roundTrip none Axis.vertical exVisibleState exPanFirst0
    [exPanMove10] exPanFinal0 rfl rfl hvis
    (by intro e he; simp at he; subst he; exact ⟨rfl, rfl⟩)
    rfl rfl hden
  exact ⟨hvis, hden, h.1, h.2⟩


end QScrollArea

namespace QScrollArea

/-- C8: calling the position setter with an axis outside
`{vertical, horizontal}` emits exactly one diagnostic, performs no write
to the scroll target, and leaves the engine state unchanged. -/
theorem setScrollPosition_invalid_axis (axis : String)
    (h : axisListS.contains axis = false) :
    ∀ (offset : ℚ) (st : ScrollAreaState),
    (localSetScrollPosition axis offset st).1 = st
    ∧ (localSetScrollPosition axis offset st).2.length = 1 := by
  intro offset st
  unfold localSetScrollPosition
  rw [if_pos h]
  exact ⟨rfl, rfl⟩

/-- Witness for C8 with the axis string of the spec example. -/
theorem setScrollPosition_invalid_axis_witness :
    axisListS.contains "diagonal" = false
    ∧ (localSetScrollPosition "diagonal" 500 exVisibleState).1 = exVisibleState
    ∧ (localSetScrollPosition "diagonal" 500 exVisibleState).2.length = 1 := by
  have hc : axisListS.contains "diagonal" = false := by
    simp [axisListS]
  exact ⟨hc, (setScrollPosition_invalid_axis "diagonal" hc 500 exVisibleState).1,
    (setScrollPosition_invalid_axis "diagonal" hc 500 exVisibleState).2⟩


end QScrollArea

namespace QScrollArea

lemma fireDue_initial (now : ℚ) : fireDue now TimerState.initial = TimerState.initial := by
  simp [fireDue, TimerState.initial]

lemma fireDue_oneShot_lt (now : ℚ) (id : ℕ) (e : ℚ) (h : now < e) :
    fireDue now (oneShot id e) = oneShot id e := by
  have h' : ¬ e ≤ now := not_le.mpr h
  simp [fireDue, oneShot, h']

lemma fireDue_oneShot_le (now : ℚ) (id : ℕ) (e : ℚ) (h : e ≤ now) :
    fireDue now (oneShot id e) = ⟨false, [], id⟩ := by
  simp [fireDue, oneShot, h]

lemma startTimer_oneShot (delay now : ℚ) (id : ℕ) (e : ℚ) :
    startTimer delay now (oneShot id e) = oneShot (id + 1) (now + delay) := by
  simp [startTimer, oneShot, clearTimeoutId]

lemma notifyAt_initial (delay t : ℚ) :
    notifyAt delay t TimerState.initial = oneShot 1 (t + delay) := by
  rw [notifyAt, fireDue_initial]
  simp [startTimer, TimerState.initial, oneShot]

lemma notifyAt_oneShot (delay now : ℚ) (id : ℕ) (e : ℚ) (h : now < e) :
    notifyAt delay now (oneShot id e) = oneShot (id + 1) (now + delay) := by
  rw [notifyAt, fireDue_oneShot_lt now id e h, startTimer_oneShot]

lemma runNotifies_oneShot (delay : ℚ) (l : List ℚ) :
    ∀ (u : ℚ) (id : ℕ), List.Chain (fun a b => a < b ∧ b - a < delay) u l →
      runNotifies delay l (oneShot id (u + delay))
        = oneShot (id + l.length) (l.getLastD u + delay) := by
  induction l with
  | nil => intro u id _; simp [runNotifies, List.getLastD]
  | cons t r ih =>
    intro u id hch
    obtain ⟨⟨h1, h2⟩, hch'⟩ := List.chain_cons.mp hch
    have hlt : t < u + delay := by linarith
    have hstep : runNotifies delay (t :: r) (oneShot id (u + delay))
        = runNotifies delay r (notifyAt delay t (oneShot id (u + delay))) := by
      simp [runNotifies]
    rw [hstep, notifyAt_oneShot _ _ _ _ hlt, ih t (id + 1) hch']
    rw [List.getLastD_cons, List.length_cons,
      show id + 1 + r.length = id + (r.length + 1) by omega]



lemma runNotifies_initial_cons (delay t : ℚ) (r : List ℚ)
    (hch : List.Chain (fun a b => a < b ∧ b - a < delay) t r) :
    runNotifies delay (t :: r) TimerState.initial
      = oneShot (1 + r.length) (r.getLastD t + delay) := by
  have hstep : runNotifies delay (t :: r) TimerState.initial
      = runNotifies delay r (notifyAt delay t TimerState.initial) := by
    simp [runNotifies]
  rw [hstep, notifyAt_initial, runNotifies_oneShot delay r t 1 hch]

/-- C7: the visibility timer keeps at most one pending timeout along any
chain of `notify()` calls; during a chain of notifies at gaps shorter
than `delay` the flag `tempShowing` is raised from the first call on,
stays raised at any observation before the last call plus `delay`, and
is lowered at any observation at or after the last call plus `delay`. -/
theorem visibility_timer_spec (delay : ℚ) (hd : 0 < delay) (l : List ℚ)
    (hne : l ≠ []) (hchain : notifyChain delay l) :
    (∀ l2, l2 <+: l →
        (runNotifies delay l2 TimerState.initial).pending.length ≤ 1)
    ∧ (∀ l2, l2 <+: l → l2 ≠ [] →
        (runNotifies delay l2 TimerState.initial).tempShowing = true)
    ∧ (∀ T, T < l.getLastD 0 + delay →
        observeShowing T (runNotifies delay l TimerState.initial) = true)
    ∧ (∀ T, l.getLastD 0 + delay ≤ T →
        observeShowing T (runNotifies delay l TimerState.initial) = false) := by
  have hform : ∀ l2, l2 ≠ [] → notifyChain delay l2 →
      ∃ n e, runNotifies delay l2 TimerState.initial = oneShot n e
        ∧ e = l2.getLastD 0 + delay := by
    intro l2 h2 hc2
    match l2, h2 with
    | t :: r, _ =>
      have hch : List.Chain (fun a b => a < b ∧ b - a < delay) t r := hc2
      refine ⟨1 + r.length, r.getLastD t + delay,
        runNotifies_initial_cons delay t r hch, ?_⟩
      rw [List.getLastD_cons]
  refine ⟨?_, ?_, ?_, ?_⟩
  · intro l2 hp
    rcases eq_or_ne l2 [] with h2 | h2
    · subst h2
      simp [runNotifies, TimerState.initial]
    · obtain ⟨tail, htail⟩ := hp
      have hc2 : notifyChain delay l2 := by
        rw [notifyChain]
        exact List.Chain'.left_of_append (htail ▸ hchain)
      obtain ⟨n, e, hrun, _⟩ := hform l2 h2 hc2
      rw [hrun]
      simp [oneShot]
  · intro l2 hp h2
    obtain ⟨tail, htail⟩ := hp
    have hc2 : notifyChain delay l2 := by
      rw [notifyChain]
      exact List.Chain'.left_of_append (htail ▸ hchain)
    obtain ⟨n, e, hrun, _⟩ := hform l2 h2 hc2
    rw [hrun]
    rfl
  · intro T hT
    obtain ⟨n, e, hrun, he⟩ := hform l hne hchain
    rw [hrun, observeShowing, fireDue_oneShot_lt _ _ _ (he ▸ hT)]
    rfl
  · intro T hT
    obtain ⟨n, e, hrun, he⟩ := hform l hne hchain
    rw [hrun, observeShowing, fireDue_oneShot_le _ _ _ (he ▸ hT)]

/-- Witness for C7: notifies at 0, 500 and 900 ms with a 1000 ms delay:
still showing at 1899 ms, hidden at 1900 ms. -/
theorem visibility_timer_spec_witness :
    (0 : ℚ) < 1000 ∧ notifyChain 1000 [0, 500, 900]
    ∧ observeShowing 1899 (runNotifies 1000 [0, 500, 900] TimerState.initial) = true
    ∧ observeShowing 1900 (runNotifies 1000 [0, 500, 900] TimerState.initial) = false := by
  have hch : notifyChain 1000 [0, 500, 900] := by
    unfold notifyChain
    norm_num [List.chain'_cons, List.chain'_singleton]
  have h := visibility_timer_spec 1000 (by norm_num) [0, 500, 900] (by simp) hch
  refine ⟨by norm_num, hch, ?_, ?_⟩
  · exact h.2.2.1 1899
      (by norm_num [List.getLastD_cons, List.getLastD_nil])
  · exact h.2.2.2 1900
      (by norm_num [List.getLastD_cons, List.getLastD_nil])


end QScrollArea

namespace QScrollArea

/-- C4 counterexample: the zero-size-container state (container 0,
content 100, pointer hovering) is within the claim's degenerate
geometry, yet the thumb is not hidden (line 100 tests
`100 <= 0 + 1`, which fails) and a first pan event starts a drag
session — the claimed fully-hidden, non-interactive thumb is false for
a zero-size container. -/
theorem degenerate_zero_container_counterexample :
    thumbHidden none exZeroContainerState.hover exZeroContainerState.tempShowing
      exZeroContainerState.panning (axisContainer Axis.vertical exZeroContainerState)
      (axisSize Axis.vertical exZeroContainerState) = false
    ∧ (onPanThumb none Axis.vertical exPanFirst0 exZeroContainerState).panning
        = true := by
  have hh : thumbHidden none exZeroContainerState.hover
      exZeroContainerState.tempShowing exZeroContainerState.panning
      (axisContainer Axis.vertical exZeroContainerState)
      (axisSize Axis.vertical exZeroContainerState) = false := by
    norm_num [thumbHidden, exZeroContainerState, axisContainer, axisSize]
  have hfirst : exPanFirst0.isFirst = true := rfl
  have hfinal : exPanFirst0.isFinal = false := rfl
  have hstep : onPanThumb none Axis.vertical exPanFirst0 exZeroContainerState
      = panMove Axis.vertical exPanFirst0
          { exZeroContainerState with
            panRefPos := axisPosition Axis.vertical exZeroContainerState,
            panning := true } := by
    simp [onPanThumb, hfirst, hh]
  refine ⟨hh, ?_⟩
  rw [hstep, panMove_panning, hfinal]
  simp

end QScrollArea
